import Mathlib

/-!
Verification development for the order/payment tracking backend
(capactiyvirus/stripe-backend).

The Go source is shallowly embedded:
* `models/payment.go` entity records become Lean structures; Go `time.Time`
  becomes a `Nat` tick, `*time.Time` becomes `Option Nat`; `float64` currency
  values become `ℚ`; `int`/`int64` become `Int` (or `Nat` for counters that
  are only incremented).
* `store/payment_store.go` (the in-memory backend) becomes pure functions on
  a `PaymentStore` record whose Go maps are association lists; `time.Now()`
  is threaded in as an explicit `now` argument; Go `error` returns become
  `Except String`.
* `store/postgres_store.go` (the relational backend) becomes pure functions
  on a `PG` record of table-row lists; a SQL `UPDATE ... WHERE` is a `map`
  over the addressed row list (matching zero rows is not an error, exactly
  as `db.Exec` reports none).
* `handlers/webhook_handlers.go` becomes functions on the in-memory store;
  the external `webhook.ConstructEvent` is abstracted as an
  `Option StripeEvent` input (its result), parsed payloads carry the fields
  the handlers read with nilable pointers as `Option`, and a Go nil-pointer
  dereference (runtime panic, no HTTP response written) is modelled as
  `none`.
-/

namespace Stripe

/-! ## Entity model (models/payment.go) -/

inductive PaymentStatus where
  | pending
  | succeeded
  | failed
  | canceled
  | refunded
deriving DecidableEq, Repr

inductive OrderStatus where
  | created
  | pending
  | paid
  | fulfilled
  | canceled
  | refunded
deriving DecidableEq, Repr

inductive PaymentMethod where
  | card
  | paypal
  | applePay
  | googlePay
deriving DecidableEq, Repr

structure OrderItem where
  productId : String
  productName : String
  fileType : String
  price : ℚ
  quantity : Int
  downloadUrl : String
deriving DecidableEq, Repr

structure CustomerInfo where
  email : String
  name : String
  phone : String
  ipAddress : String
deriving DecidableEq, Repr

structure PaymentInfo where
  stripePaymentIntentId : String
  stripeSessionId : String
  amount : Int
  currency : String
  status : PaymentStatus
  method : PaymentMethod
  processedAt : Option Nat
  refundedAt : Option Nat
deriving DecidableEq, Repr

structure Order where
  id : String
  trackingId : String
  customerInfo : CustomerInfo
  items : List OrderItem
  payment : PaymentInfo
  status : OrderStatus
  metadata : List (String × String)
  createdAt : Nat
  updatedAt : Nat
  fulfilledAt : Option Nat
deriving DecidableEq, Repr

/-- Model of `PaymentEvent.Data` is a Go `interface{}`; the dispatcher only ever
stores string-keyed maps in it, modelled as string pairs. -/
structure PaymentEvent where
  id : String
  orderId : String
  eventType : String
  status : PaymentStatus
  data : List (String × String)
  createdAt : Nat
deriving DecidableEq, Repr

structure OrderSummary where
  id : String
  trackingId : String
  customerEmail : String
  totalAmount : ℚ
  status : OrderStatus
  itemCount : Nat
  createdAt : Nat
deriving DecidableEq, Repr

structure PaymentStats where
  totalOrders : Nat
  totalRevenue : ℚ
  pendingOrders : Nat
  completedOrders : Nat
  refundedOrders : Nat
  averageOrderValue : ℚ
  revenueToday : ℚ
  revenueThisMonth : ℚ
deriving DecidableEq, Repr

/-! ## Association-list maps (the Go `map` type) -/

/-- Lookup in a Go map, `m[k]` with the `ok` flag as `Option`. -/
def mapFind (k : String) : List (String × α) → Option α
  | [] => none
  | (k', v) :: rest => if k' = k then some v else mapFind k rest

/-- Go map assignment `m[k] = v`: replace the binding if present, else add. -/
def mapInsert (k : String) (v : α) : List (String × α) → List (String × α)
  | [] => [(k, v)]
  | (k', v') :: rest =>
      if k' = k then (k, v) :: rest else (k', v') :: mapInsert k v rest

@[simp] theorem mapFind_nil (k : String) : mapFind k ([] : List (String × α)) = none := rfl

@[simp] theorem mapFind_cons (k k' : String) (v : α) (l : List (String × α)) :
    mapFind k ((k', v) :: l) = if k' = k then some v else mapFind k l := rfl

@[simp] theorem mapFind_mapInsert_self (k : String) (v : α) (l : List (String × α)) :
    mapFind k (mapInsert k v l) = some v := by
  induction l with
  | nil => simp [mapInsert]
  | cons hd tl ih =>
      obtain ⟨k', v'⟩ := hd
      by_cases h : k' = k
      · simp [mapInsert, h]
      · simp [mapInsert, h, ih]

theorem mapFind_mapInsert_ne (k j : String) (v : α) (l : List (String × α))
    (h : j ≠ k) : mapFind j (mapInsert k v l) = mapFind j l := by
  have hkj : ¬k = j := fun hh => h hh.symm
  induction l with
  | nil => simp [mapInsert, hkj]
  | cons hd tl ih =>
      obtain ⟨k', v'⟩ := hd
      by_cases hk : k' = k
      · subst hk
        simp [mapInsert, hkj]
      · simp only [mapInsert, if_neg hk, mapFind_cons]
        by_cases hj : k' = j
        · simp [hj]
        · simp [hj, ih]

/-! ## In-memory backend (store/payment_store.go, `PaymentStore`) -/

structure PaymentStore where
  orders : List (String × Order)
  events : List (String × List PaymentEvent)
  trackingIDs : List (String × String)
  customerIndex : List (String × List String)
deriving DecidableEq, Repr

/-- Model of `NewPaymentStore`. -/
def NewPaymentStore : PaymentStore := ⟨[], [], [], []⟩

namespace PaymentStore

/-- Model of `PaymentStore.CreateOrder`: rejects an empty order id, stamps both
timestamps with `now`, stores the aggregate, and registers the (nonempty)
tracking-id and customer-email index entries. -/
def CreateOrder (now : Nat) (order : Order) (s : PaymentStore) :
    Except String PaymentStore :=
  if order.id = "" then
    .error "order ID cannot be empty"
  else
    let order := { order with createdAt := now, updatedAt := now }
    let s := { s with orders := mapInsert order.id order s.orders }
    let s :=
      if order.trackingId ≠ "" then
        { s with trackingIDs := mapInsert order.trackingId order.id s.trackingIDs }
      else s
    let prev := (mapFind order.customerInfo.email s.customerIndex).getD []
    let s :=
      if order.customerInfo.email ≠ "" then
        { s with customerIndex :=
            mapInsert order.customerInfo.email (prev ++ [order.id]) s.customerIndex }
      else s
    .ok s

/-- Model of `PaymentStore.GetOrder`: lookup, returning a copy of the stored value. -/
def GetOrder (orderID : String) (s : PaymentStore) : Except String Order :=
  match mapFind orderID s.orders with
  | none => .error ("order not found: " ++ orderID)
  | some order => .ok order

/-- Model of `PaymentStore.GetOrderByTrackingID`: resolve the tracking index, then
delegate to `GetOrder`. -/
def GetOrderByTrackingID (trackingID : String) (s : PaymentStore) :
    Except String Order :=
  match mapFind trackingID s.trackingIDs with
  | none => .error ("order not found with tracking ID: " ++ trackingID)
  | some orderID => GetOrder orderID s

/-- Model of `PaymentStore.UpdateOrder`: requires the id to exist, then stores the
caller-supplied aggregate wholesale with a refreshed update timestamp. -/
def UpdateOrder (now : Nat) (order : Order) (s : PaymentStore) :
    Except String PaymentStore :=
  match mapFind order.id s.orders with
  | none => .error ("order not found: " ++ order.id)
  | some _ =>
      .ok { s with orders := mapInsert order.id { order with updatedAt := now } s.orders }

/-- Model of `PaymentStore.UpdateOrderStatus`: sets status and update timestamp, and
sets the fulfilled timestamp once (if unset) on transition to fulfilled. -/
def UpdateOrderStatus (now : Nat) (orderID : String) (status : OrderStatus)
    (s : PaymentStore) : Except String PaymentStore :=
  match mapFind orderID s.orders with
  | none => .error ("order not found: " ++ orderID)
  | some order =>
      let order := { order with status := status, updatedAt := now }
      let order :=
        if status = OrderStatus.fulfilled ∧ order.fulfilledAt = none then
          { order with fulfilledAt := some now }
        else order
      .ok { s with orders := mapInsert orderID order s.orders }

/-- Model of `PaymentStore.UpdatePaymentStatus`: sets the payment status and update
timestamp; only when the new status is succeeded AND the processed timestamp
is still unset does it stamp the processed timestamp and force the order
status to paid (the coupling lives inside that guard in the source). -/
def UpdatePaymentStatus (now : Nat) (orderID : String) (status : PaymentStatus)
    (s : PaymentStore) : Except String PaymentStore :=
  match mapFind orderID s.orders with
  | none => .error ("order not found: " ++ orderID)
  | some order =>
      let order := { order with
        payment := { order.payment with status := status }, updatedAt := now }
      let order :=
        if status = PaymentStatus.succeeded ∧ order.payment.processedAt = none then
          { order with
            payment := { order.payment with processedAt := some now },
            status := OrderStatus.paid }
        else order
      .ok { s with orders := mapInsert orderID order s.orders }

end PaymentStore

/-- Comparator passed to `sort.Slice` in `GetAllOrders` / `GetCustomerOrders`:
`orders[i].CreatedAt.After(orders[j].CreatedAt)`, i.e. newest first. The
non-strict closure of that comparator is used for the sort. -/
def createdDesc (a b : Order) : Prop := b.createdAt ≤ a.createdAt

instance : DecidableRel createdDesc := fun a b => Nat.decLe b.createdAt a.createdAt

instance : IsTotal Order createdDesc := ⟨fun a b => le_total b.createdAt a.createdAt⟩

instance : IsTrans Order createdDesc := ⟨fun _ _ _ hab hbc => le_trans hbc hab⟩

/-- The per-order summary row built in `GetAllOrders`. -/
def mkOrderSummary (order : Order) : OrderSummary :=
  { id := order.id
    trackingId := order.trackingId
    customerEmail := order.customerInfo.email
    totalAmount := (order.payment.amount : ℚ) / 100
    status := order.status
    itemCount := order.items.length
    createdAt := order.createdAt }

namespace PaymentStore

/-- Model of `PaymentStore.GetAllOrders`: sort all orders newest-created-first, then
page with `start := min offset n` (only clamped from above) and
`end := min (start + limit) n`. A negative capacity passed to `make`
(`end < start`) or a negative loop index (`start < 0` with a non-empty
range) is a Go runtime panic, modelled as `none`; every other input
returns `some` page. -/
def GetAllOrders (limit offset : Int) (s : PaymentStore) :
    Option (List OrderSummary) :=
  let orderList := s.orders.map Prod.snd
  let sorted := List.insertionSort createdDesc orderList
  let n : Int := sorted.length
  let start := if offset > n then n else offset
  let endIdx := if start + limit > n then n else start + limit
  if endIdx - start < 0 then none
  else if start < 0 ∧ start < endIdx then none
  else some (((sorted.drop start.toNat).take (endIdx - start).toNat).map mkOrderSummary)

/-- Model of `PaymentStore.AddPaymentEvent`: generates an id from the clock when the
caller supplied none, stamps the creation time, appends to the order's event
log; never fails (the Go function always returns `nil`). -/
def AddPaymentEvent (now : Nat) (event : PaymentEvent) (s : PaymentStore) :
    PaymentStore :=
  let event := { event with
    id := if event.id = "" then "evt_" ++ toString now else event.id
    createdAt := now }
  let log := (mapFind event.orderId s.events).getD [] ++ [event]
  { s with events := mapInsert event.orderId log s.events }

end PaymentStore

/-- Zero value of `models.PaymentStats`, the accumulator's start. -/
def initStats : PaymentStats := ⟨0, 0, 0, 0, 0, 0, 0, 0⟩

/-- One iteration of the `GetPaymentStats` loop over the orders map.
`today`/`thisMonth` are the midnight/first-of-month instants computed from
the wall clock before the loop; `CreatedAt.After` is a strict comparison. -/
def statsStep (today thisMonth : Nat) (acc : PaymentStats) (order : Order) :
    PaymentStats :=
  let acc := { acc with totalOrders := acc.totalOrders + 1 }
  let orderAmount : ℚ := (order.payment.amount : ℚ) / 100
  if order.status = OrderStatus.pending then
    { acc with pendingOrders := acc.pendingOrders + 1 }
  else if order.status = OrderStatus.paid ∨ order.status = OrderStatus.fulfilled then
    { acc with
      completedOrders := acc.completedOrders + 1
      totalRevenue := acc.totalRevenue + orderAmount
      revenueToday :=
        if today < order.createdAt then acc.revenueToday + orderAmount
        else acc.revenueToday
      revenueThisMonth :=
        if thisMonth < order.createdAt then acc.revenueThisMonth + orderAmount
        else acc.revenueThisMonth }
  else if order.status = OrderStatus.refunded then
    { acc with refundedOrders := acc.refundedOrders + 1 }
  else acc

namespace PaymentStore

/-- Model of `PaymentStore.GetPaymentStats`: fold the loop over every stored order,
then divide total revenue by the completed count only when that count is
positive (otherwise the average stays at its zero value). -/
def GetPaymentStats (today thisMonth : Nat) (s : PaymentStore) : PaymentStats :=
  let st := s.orders.foldl (fun acc kv => statsStep today thisMonth acc kv.2) initStats
  if st.completedOrders > 0 then
    { st with averageOrderValue := st.totalRevenue / (st.completedOrders : ℚ) }
  else st

end PaymentStore

/-! ## Relational backend (store/postgres_store.go, `PostgresStore`)

Database state is the four tables as row lists. A SQL `UPDATE ... WHERE`
maps over the addressed table; a statement that matches zero rows succeeds
(returns no error), exactly as `db.Exec` does. The `Except` result mirrors
the Go `error` return: these operations never produce a not-found error. -/

structure OrderRow where
  id : String
  trackingId : String
  customerEmail : String
  customerName : String
  customerPhone : String
  customerIp : String
  status : OrderStatus
  metadata : List (String × String)
  createdAt : Nat
  updatedAt : Nat
  fulfilledAt : Option Nat
deriving DecidableEq, Repr

structure PaymentRow where
  orderId : String
  stripePaymentIntentId : String
  stripeSessionId : String
  amount : Int
  currency : String
  status : PaymentStatus
  method : PaymentMethod
  processedAt : Option Nat
  refundedAt : Option Nat
deriving DecidableEq, Repr

structure ItemRow where
  orderId : String
  productId : String
  productName : String
  fileType : String
  price : ℚ
  quantity : Int
deriving DecidableEq, Repr

structure EventRow where
  orderId : String
  eventType : String
  status : PaymentStatus
  data : List (String × String)
  createdAt : Nat
deriving DecidableEq, Repr

structure PG where
  orders : List OrderRow
  payments : List PaymentRow
  items : List ItemRow
  events : List EventRow
deriving DecidableEq, Repr

def PG.empty : PG := ⟨[], [], [], []⟩

/-- Row effect of `PostgresStore.UpdateOrder`'s first UPDATE: replaces
customer columns, status, metadata, update timestamp and fulfilled
timestamp; the `created_at` and `tracking_id` columns are not in the SET
list. -/
def pgOrderRowReplace (now : Nat) (order : Order) (r : OrderRow) : OrderRow :=
  if r.id = order.id then
    { r with
      customerEmail := order.customerInfo.email
      customerName := order.customerInfo.name
      customerPhone := order.customerInfo.phone
      customerIp := order.customerInfo.ipAddress
      status := order.status
      metadata := order.metadata
      updatedAt := now
      fulfilledAt := order.fulfilledAt }
  else r

/-- Row effect of `PostgresStore.UpdateOrder`'s second UPDATE on the
payments table. -/
def pgPaymentRowReplace (order : Order) (p : PaymentRow) : PaymentRow :=
  if p.orderId = order.id then
    { p with
      stripePaymentIntentId := order.payment.stripePaymentIntentId
      stripeSessionId := order.payment.stripeSessionId
      amount := order.payment.amount
      currency := order.payment.currency
      status := order.payment.status
      method := order.payment.method
      processedAt := order.payment.processedAt
      refundedAt := order.payment.refundedAt }
  else p

namespace PostgresStore

/-- Model of `PostgresStore.UpdateOrder`: two UPDATE statements; no existence check,
no rows-affected check. -/
def UpdateOrder (now : Nat) (order : Order) (st : PG) : Except String PG :=
  .ok { st with
    orders := st.orders.map (pgOrderRowReplace now order)
    payments := st.payments.map (pgPaymentRowReplace order) }

/-- Model of `PostgresStore.UpdateOrderStatus`: a single UPDATE setting status and
update timestamp, plus `fulfilled_at = now` (unconditionally) when the new
status is fulfilled. Zero matched rows is still a success. -/
def UpdateOrderStatus (now : Nat) (orderID : String) (status : OrderStatus)
    (st : PG) : Except String PG :=
  .ok { st with
    orders := st.orders.map (fun r =>
      if r.id = orderID then
        { r with
          status := status
          updatedAt := now
          fulfilledAt :=
            if status = OrderStatus.fulfilled then some now else r.fulfilledAt }
      else r) }

/-- Model of `PostgresStore.UpdatePaymentStatus`: in one transaction, UPDATE the
payment row (adding `processed_at = now` when succeeded, `refunded_at = now`
when refunded — both unconditional overwrites), and when the status is
succeeded also UPDATE the order row to status paid. Zero matched rows is
still a success. -/
def UpdatePaymentStatus (now : Nat) (orderID : String) (status : PaymentStatus)
    (st : PG) : Except String PG :=
  let payments := st.payments.map (fun p =>
    if p.orderId = orderID then
      { p with
        status := status
        processedAt :=
          if status = PaymentStatus.succeeded then some now else p.processedAt
        refundedAt :=
          if status = PaymentStatus.refunded then some now else p.refundedAt }
    else p)
  let orders :=
    if status = PaymentStatus.succeeded then
      st.orders.map (fun r =>
        if r.id = orderID then
          { r with status := OrderStatus.paid, updatedAt := now }
        else r)
    else st.orders
  .ok { st with payments := payments, orders := orders }

/-- Model of `PostgresStore.GetPaymentStats`: the single aggregate query. Each order
LEFT-JOINs its (at most one) payment row; `amountOf` yields that row's
amount, 0 when absent (COALESCE). Revenue sums only count rows whose order
status is paid or fulfilled; `isToday`/`isThisMonth` abstract the SQL
calendar predicates `DATE(created_at) = CURRENT_DATE` and
`DATE_TRUNC('month', ...) = DATE_TRUNC('month', CURRENT_DATE)`. The average
is then computed in Go, guarded by a positive completed count. -/
def GetPaymentStats (isToday isThisMonth : Nat → Bool) (st : PG) :
    PaymentStats :=
  let amountOf : String → Int := fun oid =>
    ((st.payments.find? (fun p => decide (p.orderId = oid))).map
      PaymentRow.amount).getD 0
  let completed : OrderRow → Bool := fun r =>
    decide (r.status = OrderStatus.paid ∨ r.status = OrderStatus.fulfilled)
  let totalRevenueC : Int :=
    (st.orders.map (fun r => if completed r then amountOf r.id else 0)).sum
  let revenueTodayC : Int :=
    (st.orders.map (fun r =>
      if isToday r.createdAt && completed r then amountOf r.id else 0)).sum
  let revenueThisMonthC : Int :=
    (st.orders.map (fun r =>
      if isThisMonth r.createdAt && completed r then amountOf r.id else 0)).sum
  let stats : PaymentStats :=
    { totalOrders := st.orders.length
      totalRevenue := (totalRevenueC : ℚ) / 100
      pendingOrders :=
        (st.orders.filter (fun r => decide (r.status = OrderStatus.pending))).length
      completedOrders := (st.orders.filter completed).length
      refundedOrders :=
        (st.orders.filter (fun r => decide (r.status = OrderStatus.refunded))).length
      averageOrderValue := 0
      revenueToday := (revenueTodayC : ℚ) / 100
      revenueThisMonth := (revenueThisMonthC : ℚ) / 100 }
  if stats.completedOrders > 0 then
    { stats with averageOrderValue :=
        stats.totalRevenue / (stats.completedOrders : ℚ) }
  else stats

end PostgresStore

/-- Comparator behind the SQL `ORDER BY o.created_at DESC` of the
relational `GetAllOrders`, on order rows. -/
def createdDescRow (a b : OrderRow) : Prop := b.createdAt ≤ a.createdAt

instance : DecidableRel createdDescRow := fun a b => Nat.decLe b.createdAt a.createdAt

instance : IsTotal OrderRow createdDescRow := ⟨fun a b => le_total b.createdAt a.createdAt⟩

instance : IsTrans OrderRow createdDescRow := ⟨fun _ _ _ hab hbc => le_trans hbc hab⟩

/-- Model of the row-scan loop of the relational `GetAllOrders`: each
result row is scanned into a summary; an order row without a payment row
LEFT-JOINs a NULL amount, which fails the `Scan` into an `int64`. -/
def pgScanSummaries (payments : List PaymentRow) (items : List ItemRow) :
    List OrderRow → Except String (List OrderSummary)
  | [] => .ok []
  | r :: rest =>
      match payments.find? (fun p => decide (p.orderId = r.id)) with
      | none => .error "failed to scan order summary: NULL amount"
      | some p =>
          match pgScanSummaries payments items rest with
          | .error e => .error e
          | .ok tl =>
              .ok ({ id := r.id
                     trackingId := r.trackingId
                     customerEmail := r.customerEmail
                     totalAmount := (p.amount : ℚ) / 100
                     status := r.status
                     itemCount :=
                       (items.filter (fun it => decide (it.orderId = r.id))).length
                     createdAt := r.createdAt } :: tl)

namespace PostgresStore

/-- Model of `PostgresStore.GetAllOrders`: one query sorting the orders
newest-created-first and paging with `LIMIT $1 OFFSET $2` — Postgres
rejects a negative LIMIT or OFFSET, surfaced by the Go code as a wrapped
"failed to get all orders" error — then a scan loop over the returned
rows. -/
def GetAllOrders (limit offset : Int) (st : PG) :
    Except String (List OrderSummary) :=
  if limit < 0 ∨ offset < 0 then
    .error "failed to get all orders: LIMIT/OFFSET must not be negative"
  else
    let sorted := List.insertionSort createdDescRow st.orders
    pgScanSummaries st.payments st.items
      ((sorted.drop offset.toNat).take limit.toNat)

end PostgresStore

/-! ## Aliasing model of the in-memory reads

Go's `orderCopy := *order` copies every struct field, but `Items` is a slice
header and `Metadata` a map header: the copy shares their backing storage
with the store-owned original. To reason about that sharing, `AliasStore`
keeps the slice/map payloads in an explicit heap addressed by `Nat`
references, and an `OrderVal` (the struct value) holds the references. A
caller mutation performed through the returned value's item list or
metadata map is a heap write at the shared reference. -/

structure Heap where
  itemsH : List (List OrderItem)
  metaH : List (List (String × String))
deriving DecidableEq, Repr

structure OrderVal where
  id : String
  trackingId : String
  customerInfo : CustomerInfo
  itemsRef : Nat
  payment : PaymentInfo
  status : OrderStatus
  metaRef : Nat
  createdAt : Nat
  updatedAt : Nat
  fulfilledAt : Option Nat
deriving DecidableEq, Repr

structure AliasStore where
  orders : List (String × OrderVal)
  customerIndex : List (String × List String)
  heap : Heap
deriving DecidableEq, Repr

/-- Model of `sort.Slice` comparator of `GetCustomerOrders`, on struct values. -/
def createdDescV (a b : OrderVal) : Prop := b.createdAt ≤ a.createdAt

instance : DecidableRel createdDescV := fun a b => Nat.decLe b.createdAt a.createdAt

namespace AliasStore

/-- Model of `PaymentStore.GetOrder` in the aliasing model: `orderCopy := *order`
copies the struct value — including the `Items` slice header and `Metadata`
map header, i.e. the heap references. -/
def GetOrder (orderID : String) (s : AliasStore) : Except String OrderVal :=
  match mapFind orderID s.orders with
  | none => .error ("order not found: " ++ orderID)
  | some order => .ok order

/-- Model of `PaymentStore.GetCustomerOrders` in the aliasing model: resolve the
email index, shallow-copy each present order, sort newest-created-first. -/
def GetCustomerOrders (email : String) (s : AliasStore) : List OrderVal :=
  let orderIDs := (mapFind email s.customerIndex).getD []
  let orders := orderIDs.filterMap (fun oid => mapFind oid s.orders)
  List.insertionSort createdDescV orders

/-- A caller mutation through a returned value's item list (e.g. writing
`ret.Items[0]`): an in-place write to the shared backing array. -/
def writeItems (ref : Nat) (newItems : List OrderItem) (s : AliasStore) :
    AliasStore :=
  { s with heap := { s.heap with itemsH := s.heap.itemsH.set ref newItems } }

/-- A caller mutation through a returned value's metadata map. -/
def writeMeta (ref : Nat) (m : List (String × String)) (s : AliasStore) :
    AliasStore :=
  { s with heap := { s.heap with metaH := s.heap.metaH.set ref m } }

/-- The item list of a stored order as observed through the store (a
subsequent `GetOrder` plus reading the items). -/
def observedItems (orderID : String) (s : AliasStore) : Option (List OrderItem) :=
  (mapFind orderID s.orders).map (fun v => s.heap.itemsH.getD v.itemsRef [])

/-- The metadata of a stored order as observed through the store. -/
def observedMeta (orderID : String) (s : AliasStore) :
    Option (List (String × String)) :=
  (mapFind orderID s.orders).map (fun v => s.heap.metaH.getD v.metaRef [])

end AliasStore

/-! ## Webhook event dispatcher (handlers/webhook_handlers.go)

`webhook.ConstructEvent` is the external gateway SDK; its outcome is an
input (`Option StripeEvent`). A `StripeEvent` carries, per event type, the
result of `json.Unmarshal` into the struct that branch reads (`none` =
unmarshal error), with Go nil-able pointer fields as `Option`. Handlers
return `Option PaymentStore`: `none` models a nil-pointer dereference — a
runtime panic, after which no HTTP response is written. -/

inductive StripePMType where
  | card
  | paypal
  | other
deriving DecidableEq, Repr

structure SPaymentIntent where
  id : String
  amount : Int
  currency : String
  paymentMethod : Option StripePMType
  lastPaymentError : Option (String × String)
deriving DecidableEq, Repr

structure SCustomerDetails where
  email : String
  name : String
  phone : String
deriving DecidableEq, Repr

structure SSession where
  id : String
  paymentIntentId : Option String
  customerDetails : Option SCustomerDetails
deriving DecidableEq, Repr

structure SDispute where
  id : String
  chargeId : Option String
deriving DecidableEq, Repr

structure StripeEvent where
  eType : String
  intent : Option SPaymentIntent
  session : Option SSession
  invoiceOk : Bool
  dispute : Option SDispute
deriving DecidableEq, Repr

/-- Model of `getPaymentMethod`: nil pointer defaults to card; unknown types to card. -/
def getPaymentMethod (pm : Option StripePMType) : PaymentMethod :=
  match pm with
  | none => .card
  | some .card => .card
  | some .paypal => .paypal
  | some .other => .card

/-- The string constant behind a `models.PaymentMethod` value (used when the
method is embedded in an event's data payload). -/
def pmName : PaymentMethod → String
  | .card => "card"
  | .paypal => "paypal"
  | .applePay => "apple_pay"
  | .googlePay => "google_pay"

namespace Handlers

open PaymentStore

/-- Model of `Handlers.findOrderByPaymentIntentID`: fetch up to 1000 summaries, then
re-read each order and compare its payment-intent id; `""` (here `none`)
when no match. -/
def findOrderByPaymentIntentID (s : PaymentStore) (pid : String) : Option String :=
  match GetAllOrders 1000 0 s with
  | none => none
  | some sums =>
      sums.findSome? (fun sum =>
        match GetOrder sum.id s with
        | .error _ => none
        | .ok o => if o.payment.stripePaymentIntentId = pid then some o.id else none)

/-- Model of `Handlers.findOrderBySessionID`: same scan keyed by the session id. -/
def findOrderBySessionID (s : PaymentStore) (sid : String) : Option String :=
  match GetAllOrders 1000 0 s with
  | none => none
  | some sums =>
      sums.findSome? (fun sum =>
        match GetOrder sum.id s with
        | .error _ => none
        | .ok o => if o.payment.stripeSessionId = sid then some o.id else none)

/-- Model of `Handlers.handlePaymentIntentSucceeded`. -/
def handlePaymentIntentSucceeded (now : Nat) (ev : StripeEvent)
    (s : PaymentStore) : Option PaymentStore :=
  match ev.intent with
  | none => some s
  | some pi =>
      match findOrderByPaymentIntentID s pi.id with
      | none => some s
      | some orderID =>
          match UpdatePaymentStatus now orderID PaymentStatus.succeeded s with
          | .error _ => some s
          | .ok s1 =>
              match UpdateOrderStatus now orderID OrderStatus.paid s1 with
              | .error _ => some s1
              | .ok s2 =>
                  some (AddPaymentEvent now
                    { id := ""
                      orderId := orderID
                      eventType := "payment_succeeded"
                      status := PaymentStatus.succeeded
                      data := [("payment_intent_id", pi.id),
                               ("amount", toString pi.amount),
                               ("currency", pi.currency),
                               ("payment_method", pmName (getPaymentMethod pi.paymentMethod))]
                      createdAt := 0 } s2)

/-- Model of `Handlers.handlePaymentIntentFailed`: builds the event data from
`paymentIntent.LastPaymentError.Code` — a nil-pointer dereference (panic)
when the parsed intent carries no last payment error. -/
def handlePaymentIntentFailed (now : Nat) (ev : StripeEvent)
    (s : PaymentStore) : Option PaymentStore :=
  match ev.intent with
  | none => some s
  | some pi =>
      match findOrderByPaymentIntentID s pi.id with
      | none => some s
      | some orderID =>
          match UpdatePaymentStatus now orderID PaymentStatus.failed s with
          | .error _ => some s
          | .ok s1 =>
              match pi.lastPaymentError with
              | none => none
              | some lpe =>
                  some (AddPaymentEvent now
                    { id := ""
                      orderId := orderID
                      eventType := "payment_failed"
                      status := PaymentStatus.failed
                      data := [("payment_intent_id", pi.id),
                               ("failure_code", lpe.1),
                               ("failure_message", lpe.2)]
                      createdAt := 0 } s1)

/-- Model of `Handlers.handlePaymentIntentCanceled`: both status-update errors are
ignored. -/
def handlePaymentIntentCanceled (now : Nat) (ev : StripeEvent)
    (s : PaymentStore) : Option PaymentStore :=
  match ev.intent with
  | none => some s
  | some pi =>
      match findOrderByPaymentIntentID s pi.id with
      | none => some s
      | some orderID =>
          let s1 :=
            match UpdatePaymentStatus now orderID PaymentStatus.canceled s with
            | .ok t => t
            | .error _ => s
          let s2 :=
            match UpdateOrderStatus now orderID OrderStatus.canceled s1 with
            | .ok t => t
            | .error _ => s1
          some (AddPaymentEvent now
            { id := ""
              orderId := orderID
              eventType := "payment_canceled"
              status := PaymentStatus.canceled
              data := [("payment_intent_id", pi.id), ("canceled_at", toString now)]
              createdAt := 0 } s2)

/-- Model of `Handlers.handleCheckoutSessionCompleted`: after a successful
`UpdateOrder`, the event data is built from `session.PaymentIntent.ID` and
`session.CustomerDetails.Email` unconditionally — nil-pointer dereference
(panic) when either pointer is nil. -/
def handleCheckoutSessionCompleted (now : Nat) (ev : StripeEvent)
    (s : PaymentStore) : Option PaymentStore :=
  match ev.session with
  | none => some s
  | some sess =>
      let found :=
        match findOrderBySessionID s sess.id with
        | some oid => some oid
        | none =>
            match sess.paymentIntentId with
            | some pid => findOrderByPaymentIntentID s pid
            | none => none
      match found with
      | none => some s
      | some orderID =>
          match GetOrder orderID s with
          | .error _ => some s
          | .ok order =>
              let order :=
                match sess.customerDetails with
                | none => order
                | some cd =>
                    let ci := { order.customerInfo with email := cd.email }
                    let ci := if cd.name ≠ "" then { ci with name := cd.name } else ci
                    let ci := if cd.phone ≠ "" then { ci with phone := cd.phone } else ci
                    { order with customerInfo := ci }
              let order :=
                match sess.paymentIntentId with
                | some pid =>
                    { order with payment :=
                        { order.payment with stripePaymentIntentId := pid } }
                | none => order
              let order :=
                { order with payment :=
                    { order.payment with stripeSessionId := sess.id } }
              match UpdateOrder now order s with
              | .error _ => some s
              | .ok s1 =>
                  match sess.paymentIntentId, sess.customerDetails with
                  | some pid, some cd =>
                      some (AddPaymentEvent now
                        { id := ""
                          orderId := orderID
                          eventType := "checkout_completed"
                          status := PaymentStatus.succeeded
                          data := [("session_id", sess.id),
                                   ("payment_intent_id", pid),
                                   ("customer_email", cd.email)]
                          createdAt := 0 } s1)
                  | _, _ => none

/-- Model of `Handlers.handleInvoicePaymentSucceeded`: parse, then only log. -/
def handleInvoicePaymentSucceeded (_ev : StripeEvent) (s : PaymentStore) :
    Option PaymentStore :=
  some s

/-- Model of `Handlers.handleChargeDisputeCreated`: the log line dereferences
`dispute.Charge.ID` — panic when the parsed dispute has no charge. -/
def handleChargeDisputeCreated (ev : StripeEvent) (s : PaymentStore) :
    Option PaymentStore :=
  match ev.dispute with
  | none => some s
  | some d =>
      match d.chargeId with
      | none => none
      | some _ => some s

/-- The `switch event.Type` dispatch of `HandleStripeWebhook`. -/
def dispatchEvent (now : Nat) (ev : StripeEvent) (s : PaymentStore) :
    Option PaymentStore :=
  if ev.eType = "payment_intent.succeeded" then handlePaymentIntentSucceeded now ev s
  else if ev.eType = "payment_intent.payment_failed" then handlePaymentIntentFailed now ev s
  else if ev.eType = "payment_intent.canceled" then handlePaymentIntentCanceled now ev s
  else if ev.eType = "checkout.session.completed" then handleCheckoutSessionCompleted now ev s
  else if ev.eType = "invoice.payment_succeeded" then handleInvoicePaymentSucceeded ev s
  else if ev.eType = "charge.dispute.created" then handleChargeDisputeCreated ev s
  else some s

/-- Model of `Handlers.HandleStripeWebhook`: body-read failure → 503 before
verification; signature failure (`verified = none`) → 400 with no store
access; otherwise dispatch and answer 200 — unless the dispatched handler
panics, in which case no response is written (`none`). -/
def HandleStripeWebhook (bodyOk : Bool) (verified : Option StripeEvent)
    (now : Nat) (s : PaymentStore) : Option (Nat × PaymentStore) :=
  if bodyOk = false then some (503, s)
  else
    match verified with
    | none => some (400, s)
    | some ev =>
        match dispatchEvent now ev s with
        | none => none
        | some s' => some (200, s')

end Handlers

/-! ## Shared lemmas and concrete fixtures -/

theorem list_map_eq_self {α : Type} (l : List α) (f : α → α)
    (h : ∀ a ∈ l, f a = a) : l.map f = l := by
  induction l with
  | nil => rfl
  | cons a t ih =>
      rw [List.map_cons, h a (List.mem_cons_self a t),
        ih (fun b hb => h b (List.mem_cons_of_mem a hb))]

/-- Model of `PaymentStore.UpdatePaymentStatus` on a present order, unfolded. -/
theorem UpdatePaymentStatus_found (now : Nat) (orderID : String)
    (ps : PaymentStatus) (s : PaymentStore) (o : Order)
    (h : mapFind orderID s.orders = some o) :
    PaymentStore.UpdatePaymentStatus now orderID ps s =
      .ok { s with orders :=
        (mapInsert orderID
          (if ps = PaymentStatus.succeeded ∧ o.payment.processedAt = none then
            { o with
              payment := { o.payment with status := ps, processedAt := some now }
              updatedAt := now
              status := OrderStatus.paid }
          else
            { o with payment := { o.payment with status := ps }, updatedAt := now })
          s.orders) } := by
  unfold PaymentStore.UpdatePaymentStatus
  rw [h]

def baseCustomer : CustomerInfo := ⟨"a@b.c", "Alice", "", ""⟩

def baseItem : OrderItem := ⟨"p1", "Product", "PDF", 999 / 100, 1, ""⟩

def basePayment : PaymentInfo :=
  ⟨"", "", 1000, "usd", PaymentStatus.pending, PaymentMethod.card, none, none⟩

def baseOrder : Order :=
  { id := "o1"
    trackingId := "TRK1"
    customerInfo := baseCustomer
    items := [baseItem]
    payment := basePayment
    status := OrderStatus.created
    metadata := []
    createdAt := 0
    updatedAt := 0
    fulfilledAt := none }

/-! ## C4 — missing order id on the status updaters -/

def pgEmptyFixture : PG := PG.empty

/-- C4 (counterexample): on the relational backend, `UpdateOrderStatus` for
an order id that is not present returns success (no error at all), not a
not-found error: the UPDATE simply matches zero rows. -/
theorem C4_counterexample :
    PostgresStore.UpdateOrderStatus 0 "missing" OrderStatus.paid pgEmptyFixture =
      Except.ok pgEmptyFixture := by
  rfl

/-- C4 (amended): for an order identifier not present, the *in-memory*
`UpdateOrderStatus`/`UpdatePaymentStatus` fail with a not-found error and
touch nothing; the *relational* versions return success and leave the
database unchanged (their UPDATE statements match zero rows and no
rows-affected check is made). -/
theorem C4_missing_id :
    (∀ (s : PaymentStore) (now : Nat) (orderID : String) (st : OrderStatus),
       mapFind orderID s.orders = none →
       PaymentStore.UpdateOrderStatus now orderID st s =
         .error ("order not found: " ++ orderID)) ∧
    (∀ (s : PaymentStore) (now : Nat) (orderID : String) (ps : PaymentStatus),
       mapFind orderID s.orders = none →
       PaymentStore.UpdatePaymentStatus now orderID ps s =
         .error ("order not found: " ++ orderID)) ∧
    (∀ (st : PG) (now : Nat) (orderID : String) (os : OrderStatus),
       (∀ r ∈ st.orders, r.id ≠ orderID) →
       PostgresStore.UpdateOrderStatus now orderID os st = .ok st) ∧
    (∀ (st : PG) (now : Nat) (orderID : String) (ps : PaymentStatus),
       (∀ r ∈ st.orders, r.id ≠ orderID) →
       (∀ p ∈ st.payments, p.orderId ≠ orderID) →
       PostgresStore.UpdatePaymentStatus now orderID ps st = .ok st) := by
  refine ⟨?_, ?_, ?_, ?_⟩
  · intro s now orderID st h
    unfold PaymentStore.UpdateOrderStatus
    rw [h]
  · intro s now orderID ps h
    unfold PaymentStore.UpdatePaymentStatus
    rw [h]
  · intro st now orderID os h
    unfold PostgresStore.UpdateOrderStatus
    have : st.orders.map (fun r =>
        if r.id = orderID then
          { r with
            status := os
            updatedAt := now
            fulfilledAt :=
              if os = OrderStatus.fulfilled then some now else r.fulfilledAt }
        else r) = st.orders := by
      apply list_map_eq_self
      intro r hr
      rw [if_neg (h r hr)]
    rw [this]
  · intro st now orderID ps ho hp
    unfold PostgresStore.UpdatePaymentStatus
    have h1 : st.payments.map (fun p =>
        if p.orderId = orderID then
          { p with
            status := ps
            processedAt :=
              if ps = PaymentStatus.succeeded then some now else p.processedAt
            refundedAt :=
              if ps = PaymentStatus.refunded then some now else p.refundedAt }
        else p) = st.payments := by
      apply list_map_eq_self
      intro p hpp
      rw [if_neg (hp p hpp)]
    have h2 : st.orders.map (fun r =>
        if r.id = orderID then
          { r with status := OrderStatus.paid, updatedAt := now }
        else r) = st.orders := by
      apply list_map_eq_self
      intro r hr
      rw [if_neg (ho r hr)]
    simp only [h1, h2]
    by_cases hs : ps = PaymentStatus.succeeded
    · rw [if_pos hs]
    · rw [if_neg hs]

/-- C4 witness: the amended facts evaluated at a concrete missing id. -/
theorem C4_missing_id_witness :
    PaymentStore.UpdateOrderStatus 1 "ghost" OrderStatus.paid NewPaymentStore =
      .error ("order not found: " ++ "ghost") :=
  C4_missing_id.1 NewPaymentStore 1 "ghost" OrderStatus.paid (by rfl)

/-! ## C5 — UpdatePaymentStatus(refunded) -/

/-- C5 (counterexample): in the in-memory backend, transitioning a payment
whose refunded timestamp is unset to `refunded` does NOT set the refunded
timestamp — the function has no refunded branch at all. -/
theorem C5_counterexample :
    PaymentStore.UpdatePaymentStatus 3 "o1" PaymentStatus.refunded
        { orders := [("o1", baseOrder)], events := [], trackingIDs := [],
          customerIndex := [] } =
      Except.ok
        { orders :=
            [("o1", { baseOrder with
                payment := { basePayment with status := PaymentStatus.refunded }
                updatedAt := 3 })]
          events := [], trackingIDs := [], customerIndex := [] } ∧
    baseOrder.payment.refundedAt = none ∧
    ({ baseOrder with
        payment := { basePayment with status := PaymentStatus.refunded }
        updatedAt := 3 } : Order).payment.refundedAt = none := by
  refine ⟨?_, rfl, rfl⟩
  rfl

/-- C5 (amended): `UpdatePaymentStatus(id, refunded)` leaves the order's
status field unchanged in both backends, but the refunded timestamp is NOT
"set once if unset": the in-memory backend never sets it (it is left at its
previous value), while the relational backend overwrites it with the
current time unconditionally. -/
theorem C5_refunded :
    (∀ (s : PaymentStore) (now : Nat) (orderID : String) (o : Order),
       mapFind orderID s.orders = some o →
       PaymentStore.UpdatePaymentStatus now orderID PaymentStatus.refunded s =
         .ok { s with orders :=
           (mapInsert orderID
             { o with
               payment := { o.payment with status := PaymentStatus.refunded }
               updatedAt := now } s.orders) }) ∧
    (∀ (st : PG) (now : Nat) (orderID : String),
       ∃ st', PostgresStore.UpdatePaymentStatus now orderID
           PaymentStatus.refunded st = .ok st' ∧
         st'.orders = st.orders ∧
         ∀ p ∈ st.payments, p.orderId = orderID →
           { p with
             status := PaymentStatus.refunded
             refundedAt := some now } ∈ st'.payments) := by
  constructor
  · intro s now orderID o h
    rw [UpdatePaymentStatus_found now orderID PaymentStatus.refunded s o h]
    simp
  · intro st now orderID
    refine ⟨_, rfl, ?_, ?_⟩
    · simp [PostgresStore.UpdatePaymentStatus]
    · intro p hp hpid
      simp only [PostgresStore.UpdatePaymentStatus]
      refine List.mem_map.2 ⟨p, hp, ?_⟩
      rw [if_pos hpid]
      simp

/-! ## C1 — UpdatePaymentStatus(succeeded) -/

def c1Order : Order :=
  { baseOrder with
    status := OrderStatus.pending
    payment := { basePayment with processedAt := some 1 } }

def c1Store : PaymentStore :=
  { orders := [("o1", c1Order)], events := [], trackingIDs := [],
    customerIndex := [] }

/-- C1 (counterexample): in the in-memory backend, when the processed
timestamp is already set (here `some 1`), `UpdatePaymentStatus(o1,
succeeded)` does not force the order status to paid: the stored order keeps
its prior status (`pending`), because the status coupling sits inside the
`ProcessedAt == nil` guard. -/
theorem C1_counterexample :
    PaymentStore.UpdatePaymentStatus 2 "o1" PaymentStatus.succeeded c1Store =
      Except.ok { c1Store with orders :=
        (mapInsert "o1"
          { c1Order with
            payment := { c1Order.payment with status := PaymentStatus.succeeded }
            updatedAt := 2 } c1Store.orders) } ∧
    c1Order.payment.processedAt = some 1 ∧
    ({ c1Order with
        payment := { c1Order.payment with status := PaymentStatus.succeeded }
        updatedAt := 2 } : Order).status = OrderStatus.pending := by
  exact ⟨rfl, rfl, rfl⟩

/-- C1 (amended): for every stored order, `UpdatePaymentStatus(id,
succeeded)` yields payment status succeeded and a non-null processed
timestamp in both backends; the relational backend forces order status to
paid (and overwrites the processed timestamp) regardless of prior state,
but the in-memory backend forces order status to paid only when the
processed timestamp was previously unset — otherwise the order status and
the processed timestamp are left unchanged. -/
theorem C1_succeeded :
    (∀ (s : PaymentStore) (now : Nat) (orderID : String) (o : Order),
       mapFind orderID s.orders = some o →
       ∃ s' o',
         PaymentStore.UpdatePaymentStatus now orderID PaymentStatus.succeeded s =
           .ok s' ∧
         mapFind orderID s'.orders = some o' ∧
         o'.payment.status = PaymentStatus.succeeded ∧
         o'.payment.processedAt ≠ none ∧
         (o.payment.processedAt = none →
           o'.status = OrderStatus.paid ∧ o'.payment.processedAt = some now) ∧
         (o.payment.processedAt ≠ none →
           o'.status = o.status ∧
           o'.payment.processedAt = o.payment.processedAt)) ∧
    (∀ (st : PG) (now : Nat) (orderID : String),
       ∃ st',
         PostgresStore.UpdatePaymentStatus now orderID PaymentStatus.succeeded st =
           .ok st' ∧
         (∀ p ∈ st.payments, p.orderId = orderID →
           { p with
             status := PaymentStatus.succeeded
             processedAt := some now } ∈ st'.payments) ∧
         (∀ r ∈ st.orders, r.id = orderID →
           { r with status := OrderStatus.paid, updatedAt := now } ∈ st'.orders)) := by
  constructor
  · intro s now orderID o h
    rw [UpdatePaymentStatus_found now orderID PaymentStatus.succeeded s o h]
    by_cases hpa : o.payment.processedAt = none
    · rw [if_pos ⟨rfl, hpa⟩]
      refine ⟨_, _, rfl, mapFind_mapInsert_self orderID _ s.orders, rfl, ?_,
        fun _ => ⟨rfl, rfl⟩, fun hne => absurd hpa hne⟩
      simp
    · rw [if_neg (fun hcon => hpa hcon.2)]
      exact ⟨_, _, rfl, mapFind_mapInsert_self orderID _ s.orders, rfl, hpa,
        fun heq => absurd heq hpa, fun _ => ⟨rfl, rfl⟩⟩
  · intro st now orderID
    refine ⟨_, rfl, ?_, ?_⟩
    · intro p hp hpid
      simp only [PostgresStore.UpdatePaymentStatus]
      refine List.mem_map.2 ⟨p, hp, ?_⟩
      rw [if_pos hpid]
      simp
    · intro r hr hid
      simp only [PostgresStore.UpdatePaymentStatus, if_pos rfl]
      exact List.mem_map.2 ⟨r, hr, by rw [if_pos hid]⟩

def c1wStore : PaymentStore :=
  { orders := [("o1", baseOrder)], events := [], trackingIDs := [],
    customerIndex := [] }

/-- C1 witness: amended fact at a concrete store whose order has no
processed timestamp yet. -/
theorem C1_succeeded_witness :
    ∃ s' o',
      PaymentStore.UpdatePaymentStatus 5 "o1" PaymentStatus.succeeded c1wStore =
        .ok s' ∧
      mapFind "o1" s'.orders = some o' ∧
      o'.payment.status = PaymentStatus.succeeded ∧
      o'.payment.processedAt ≠ none ∧
      (baseOrder.payment.processedAt = none →
        o'.status = OrderStatus.paid ∧ o'.payment.processedAt = some 5) ∧
      (baseOrder.payment.processedAt ≠ none →
        o'.status = baseOrder.status ∧
        o'.payment.processedAt = baseOrder.payment.processedAt) :=
  C1_succeeded.1 c1wStore 5 "o1" baseOrder (by rfl)

/-! ## C3 — UpdateOrder and the immutable columns -/

def c3Arg : Order := { baseOrder with createdAt := 5, trackingId := "OTHER" }

def c3Store : PaymentStore :=
  { orders := [("o1", baseOrder)], events := [], trackingIDs := [],
    customerIndex := [] }

/-- C3 (counterexample): in the in-memory backend, `UpdateOrder` stores the
caller-supplied aggregate wholesale: the stored creation timestamp becomes
the argument's (5, previously 0) and the stored tracking identifier becomes
the argument's ("OTHER", previously "TRK1"). -/
theorem C3_counterexample :
    PaymentStore.UpdateOrder 7 c3Arg c3Store =
      Except.ok { c3Store with orders :=
        (mapInsert "o1" { c3Arg with updatedAt := 7 } c3Store.orders) } ∧
    ({ c3Arg with updatedAt := 7 } : Order).createdAt = 5 ∧
    baseOrder.createdAt = 0 ∧
    ({ c3Arg with updatedAt := 7 } : Order).trackingId = "OTHER" ∧
    baseOrder.trackingId = "TRK1" := by
  exact ⟨rfl, rfl, rfl, rfl, rfl⟩

/-- C3 (amended): `UpdateOrder` refreshes the update timestamp in both
backends. The relational backend leaves the stored creation timestamp and
tracking identifier unchanged for every caller-supplied argument (those
columns are absent from its SET list); the in-memory backend replaces the
stored aggregate with the argument (only stamping the update timestamp), so
the stored creation timestamp and tracking identifier become whatever the
caller passed. -/
theorem C3_update_order :
    (∀ (now : Nat) (order : Order) (r : OrderRow), r.id = order.id →
       (pgOrderRowReplace now order r).createdAt = r.createdAt ∧
       (pgOrderRowReplace now order r).trackingId = r.trackingId ∧
       (pgOrderRowReplace now order r).updatedAt = now) ∧
    (∀ (st : PG) (now : Nat) (order : Order),
       PostgresStore.UpdateOrder now order st =
         .ok { st with
           orders := st.orders.map (pgOrderRowReplace now order)
           payments := st.payments.map (pgPaymentRowReplace order) }) ∧
    (∀ (s : PaymentStore) (now : Nat) (order : Order) (o0 : Order),
       mapFind order.id s.orders = some o0 →
       ∃ s', PaymentStore.UpdateOrder now order s = .ok s' ∧
         mapFind order.id s'.orders = some { order with updatedAt := now }) := by
  refine ⟨?_, fun _ _ _ => rfl, ?_⟩
  · intro now order r h
    unfold pgOrderRowReplace
    rw [if_pos h]
    exact ⟨rfl, rfl, rfl⟩
  · intro s now order o0 h
    unfold PaymentStore.UpdateOrder
    rw [h]
    exact ⟨_, rfl, mapFind_mapInsert_self order.id _ s.orders⟩

/-- C3 witness: amended facts at a concrete row and store. -/
theorem C3_update_order_witness :
    (pgOrderRowReplace 9 c3Arg
        { id := "o1", trackingId := "TRK1", customerEmail := "a@b.c",
          customerName := "", customerPhone := "", customerIp := "",
          status := OrderStatus.created, metadata := [], createdAt := 0,
          updatedAt := 0, fulfilledAt := none }).createdAt = 0 ∧
    (pgOrderRowReplace 9 c3Arg
        { id := "o1", trackingId := "TRK1", customerEmail := "a@b.c",
          customerName := "", customerPhone := "", customerIp := "",
          status := OrderStatus.created, metadata := [], createdAt := 0,
          updatedAt := 0, fulfilledAt := none }).trackingId = "TRK1" ∧
    (pgOrderRowReplace 9 c3Arg
        { id := "o1", trackingId := "TRK1", customerEmail := "a@b.c",
          customerName := "", customerPhone := "", customerIp := "",
          status := OrderStatus.created, metadata := [], createdAt := 0,
          updatedAt := 0, fulfilledAt := none }).updatedAt = 9 :=
  C3_update_order.1 9 c3Arg
    { id := "o1", trackingId := "TRK1", customerEmail := "a@b.c",
      customerName := "", customerPhone := "", customerIp := "",
      status := OrderStatus.created, metadata := [], createdAt := 0,
      updatedAt := 0, fulfilledAt := none } (by rfl)

/-! ## C2 — shallow copies and aliasing -/

def aItem1 : OrderItem := ⟨"p2", "Other", "EPUB", 5, 1, ""⟩

def aVal : OrderVal :=
  { id := "o1"
    trackingId := "TRK1"
    customerInfo := baseCustomer
    itemsRef := 0
    payment := basePayment
    status := OrderStatus.created
    metaRef := 0
    createdAt := 0
    updatedAt := 0
    fulfilledAt := none }

def aStore : AliasStore :=
  { orders := [("o1", aVal)]
    customerIndex := [("a@b.c", ["o1"])]
    heap := ⟨[[baseItem]], [[("k", "v")]]⟩ }

/-- C2 (counterexample): the value returned by `GetOrder` shares its item
list with the store (`orderCopy := *order` copies the slice header, not the
backing array); writing through the returned value's item list changes what
the store observes afterwards: `[baseItem]` before, `[aItem1]` after. -/
theorem C2_counterexample :
    AliasStore.GetOrder "o1" aStore = .ok aVal ∧
    AliasStore.observedItems "o1" aStore = some [baseItem] ∧
    AliasStore.observedItems "o1"
        (AliasStore.writeItems aVal.itemsRef [aItem1] aStore) = some [aItem1] ∧
    [aItem1] ≠ [baseItem] := by
  refine ⟨rfl, rfl, rfl, by decide⟩

/-- C2 (amended): the in-memory reads return *shallow* copies. The returned
struct value is a copy of the stored map entry (so reassigning its scalar
fields cannot touch the store), but its item-list and metadata references
are the stored order's; a caller write through either reference is observed
through the store by every subsequent read. `GetCustomerOrders` returns the
same kind of shallow copies of stored values. -/
theorem C2_shallow_copy :
    ∀ (s : AliasStore) (orderID : String) (v : OrderVal),
      AliasStore.GetOrder orderID s = .ok v →
      mapFind orderID s.orders = some v ∧
      (v.itemsRef < s.heap.itemsH.length →
        ∀ newItems, AliasStore.observedItems orderID
            (AliasStore.writeItems v.itemsRef newItems s) = some newItems) ∧
      (v.metaRef < s.heap.metaH.length →
        ∀ m, AliasStore.observedMeta orderID
            (AliasStore.writeMeta v.metaRef m s) = some m) ∧
      (∀ email w, w ∈ AliasStore.GetCustomerOrders email s →
        ∃ oid, mapFind oid s.orders = some w) := by
  intro s orderID v h
  have hm : mapFind orderID s.orders = some v := by
    unfold AliasStore.GetOrder at h
    cases hx : mapFind orderID s.orders with
    | none => rw [hx] at h; exact Except.noConfusion h
    | some o =>
        rw [hx] at h
        cases h
        rfl
  refine ⟨hm, ?_, ?_, ?_⟩
  · intro hlt newItems
    simp [AliasStore.observedItems, AliasStore.writeItems, hm,
      List.getD_eq_getElem?_getD, List.getElem?_set_self, hlt]
  · intro hlt m
    simp [AliasStore.observedMeta, AliasStore.writeMeta, hm,
      List.getD_eq_getElem?_getD, List.getElem?_set_self, hlt]
  · intro email w hw
    unfold AliasStore.GetCustomerOrders at hw
    have hw' := (List.mem_insertionSort createdDescV).1 hw
    obtain ⟨oid, _, hfind⟩ := List.mem_filterMap.1 hw'
    exact ⟨oid, hfind⟩

/-- C2 witness: the amended aliasing fact evaluated at the concrete store. -/
theorem C2_shallow_copy_witness :
    AliasStore.observedItems "o1"
        (AliasStore.writeItems aVal.itemsRef [aItem1] aStore) = some [aItem1] :=
  (C2_shallow_copy aStore "o1" aVal (by rfl)).2.1 (by decide) [aItem1]

/-! ## CreateOrder, unfolded -/

theorem CreateOrder_ok (now : Nat) (order : Order) (s : PaymentStore)
    (h : ¬order.id = "") :
    PaymentStore.CreateOrder now order s = .ok
      { orders :=
          (mapInsert order.id { order with createdAt := now, updatedAt := now }
            s.orders)
        events := s.events
        trackingIDs :=
          (if order.trackingId ≠ "" then
            mapInsert order.trackingId order.id s.trackingIDs
          else s.trackingIDs)
        customerIndex :=
          (if order.customerInfo.email ≠ "" then
            mapInsert order.customerInfo.email
              ((mapFind order.customerInfo.email s.customerIndex).getD []
                ++ [order.id]) s.customerIndex
          else s.customerIndex) } := by
  unfold PaymentStore.CreateOrder
  rw [if_neg h]
  by_cases ht : order.trackingId = "" <;>
    by_cases he : order.customerInfo.email = "" <;>
      simp [ht, he]

/-! ## C8 — tracking-id round trip after CreateOrder -/

/-- C8 (counterexample): `CreateOrder` succeeds for an order whose tracking
identifier is empty (only the order id is validated), but the tracking index
is then not updated, so `GetOrderByTrackingID("")` fails even though
`GetOrder("o1")` succeeds. -/
theorem C8_counterexample :
    PaymentStore.CreateOrder 0 { baseOrder with trackingId := "" }
        NewPaymentStore =
      Except.ok
        { orders := [("o1", { baseOrder with trackingId := "" })]
          events := [], trackingIDs := []
          customerIndex := [("a@b.c", ["o1"])] } ∧
    PaymentStore.GetOrderByTrackingID ""
        { orders := [("o1", { baseOrder with trackingId := "" })]
          events := [], trackingIDs := []
          customerIndex := [("a@b.c", ["o1"])] } =
      Except.error ("order not found with tracking ID: " ++ "") ∧
    PaymentStore.GetOrder "o1"
        { orders := [("o1", { baseOrder with trackingId := "" })]
          events := [], trackingIDs := []
          customerIndex := [("a@b.c", ["o1"])] } =
      Except.ok { baseOrder with trackingId := "" } := by
  exact ⟨rfl, rfl, rfl⟩

/-- C8 (amended): for every order stored by `CreateOrder` whose tracking
identifier is *nonempty*, `GetOrderByTrackingID(t)` immediately afterwards
returns exactly what `GetOrder(id)` returns, namely the stored (timestamp-
stamped) aggregate. An empty tracking identifier is accepted but never
indexed. -/
theorem C8_tracking_roundtrip :
    ∀ (s : PaymentStore) (order : Order) (now : Nat) (s' : PaymentStore),
      order.trackingId ≠ "" →
      PaymentStore.CreateOrder now order s = .ok s' →
      PaymentStore.GetOrderByTrackingID order.trackingId s' =
        PaymentStore.GetOrder order.id s' ∧
      PaymentStore.GetOrder order.id s' =
        .ok { order with createdAt := now, updatedAt := now } := by
  intro s order now s' ht hc
  have hid : ¬order.id = "" := by
    intro h0
    unfold PaymentStore.CreateOrder at hc
    rw [if_pos h0] at hc
    exact Except.noConfusion hc
  rw [CreateOrder_ok now order s hid] at hc
  injection hc with hc
  subst hc
  constructor
  · simp [PaymentStore.GetOrderByTrackingID, ht]
  · simp [PaymentStore.GetOrder]

def c8wStore : PaymentStore :=
  { orders := [("o1", { baseOrder with createdAt := 4, updatedAt := 4 })]
    events := []
    trackingIDs := [("TRK1", "o1")]
    customerIndex := [("a@b.c", ["o1"])] }

/-- C8 witness: the round trip evaluated right after a concrete create. -/
theorem C8_tracking_roundtrip_witness :
    PaymentStore.GetOrderByTrackingID "TRK1" c8wStore =
      PaymentStore.GetOrder "o1" c8wStore ∧
    PaymentStore.GetOrder "o1" c8wStore =
      .ok { baseOrder with createdAt := 4, updatedAt := 4 } :=
  C8_tracking_roundtrip NewPaymentStore baseOrder 4 c8wStore (by decide) (by rfl)

/-! ## C10 — CreateOrder validation and silent replacement -/

/-- After a second customer-index registration, a previously indexed order
id is still present under its email. -/
theorem mem_customerIndex_after_insert (e1 id1 : String)
    (ci1 : List (String × List String)) (l1 : List String)
    (hbase : mapFind e1 ci1 = some l1) (hmem : id1 ∈ l1) (e2 id2 : String) :
    ∃ l, mapFind e1
        (if e2 ≠ "" then
          mapInsert e2 ((mapFind e2 ci1).getD [] ++ [id2]) ci1
        else ci1) = some l ∧ id1 ∈ l := by
  by_cases he2 : e2 = ""
  · exact ⟨l1, by simp [he2, hbase], hmem⟩
  · rw [if_pos he2]
    by_cases hee : e2 = e1
    · subst hee
      refine ⟨_, mapFind_mapInsert_self _ _ _, ?_⟩
      rw [hbase]
      exact List.mem_append.2 (Or.inl hmem)
    · refine ⟨l1, ?_, hmem⟩
      rw [mapFind_mapInsert_ne _ _ _ _ (fun hx => hee hx.symm)]
      exact hbase

/-- C10: in the in-memory backend, `CreateOrder` errors exactly when the
order identifier is empty; re-creating an existing identifier succeeds and
silently replaces the stored aggregate, while the first order's tracking
index entry still resolves to the shared id and its customer-email index
entry is still present. -/
theorem C10_create_replaces :
    (∀ (now : Nat) (order : Order) (s : PaymentStore),
       (∃ e, PaymentStore.CreateOrder now order s = .error e) ↔ order.id = "") ∧
    (∀ (now1 now2 : Nat) (o1 o2 : Order) (s s1 s2 : PaymentStore),
       PaymentStore.CreateOrder now1 o1 s = .ok s1 →
       o2.id = o1.id →
       PaymentStore.CreateOrder now2 o2 s1 = .ok s2 →
       mapFind o1.id s2.orders =
         some { o2 with createdAt := now2, updatedAt := now2 } ∧
       (o1.trackingId ≠ "" →
         mapFind o1.trackingId s2.trackingIDs = some o1.id) ∧
       (o1.customerInfo.email ≠ "" →
         ∃ l, mapFind o1.customerInfo.email s2.customerIndex = some l ∧
           o1.id ∈ l)) := by
  constructor
  · intro now order s
    constructor
    · rintro ⟨e, he⟩
      by_cases h0 : order.id = ""
      · exact h0
      · rw [CreateOrder_ok now order s h0] at he
        exact Except.noConfusion he
    · intro h0
      refine ⟨"order ID cannot be empty", ?_⟩
      unfold PaymentStore.CreateOrder
      rw [if_pos h0]
  · intro now1 now2 o1 o2 s s1 s2 hc1 heq hc2
    have hid1 : ¬o1.id = "" := by
      intro h0
      unfold PaymentStore.CreateOrder at hc1
      rw [if_pos h0] at hc1
      exact Except.noConfusion hc1
    have hid2 : ¬o2.id = "" := by
      intro h0
      unfold PaymentStore.CreateOrder at hc2
      rw [if_pos h0] at hc2
      exact Except.noConfusion hc2
    rw [CreateOrder_ok now1 o1 s hid1] at hc1
    injection hc1 with hc1
    subst hc1
    rw [CreateOrder_ok now2 o2 _ hid2] at hc2
    injection hc2 with hc2
    subst hc2
    refine ⟨?_, ?_, ?_⟩
    · simp only [heq]
      exact mapFind_mapInsert_self o1.id _ _
    · intro ht1
      have base : mapFind o1.trackingId
          (if o1.trackingId ≠ "" then
            mapInsert o1.trackingId o1.id s.trackingIDs
          else s.trackingIDs) = some o1.id := by
        rw [if_pos ht1]
        exact mapFind_mapInsert_self _ _ _
      by_cases ht2 : o2.trackingId = ""
      · simpa [ht2] using base
      · by_cases htt : o2.trackingId = o1.trackingId
        · rw [if_pos ht2, htt, mapFind_mapInsert_self, heq]
        · rw [if_pos ht2, mapFind_mapInsert_ne _ _ _ _ (fun hx => htt hx.symm)]
          exact base
    · intro he1
      have base : mapFind o1.customerInfo.email
          (if o1.customerInfo.email ≠ "" then
            mapInsert o1.customerInfo.email
              ((mapFind o1.customerInfo.email s.customerIndex).getD []
                ++ [o1.id]) s.customerIndex
          else s.customerIndex) =
          some ((mapFind o1.customerInfo.email s.customerIndex).getD []
            ++ [o1.id]) := by
        rw [if_pos he1]
        exact mapFind_mapInsert_self _ _ _
      exact mem_customerIndex_after_insert o1.customerInfo.email o1.id _ _
        base (List.mem_append.2 (Or.inr (List.mem_singleton.2 rfl)))
        o2.customerInfo.email o2.id

def c10o2 : Order :=
  { baseOrder with
    trackingId := "TRK2"
    customerInfo := { baseCustomer with email := "x@y.z" } }

def c10s1 : PaymentStore :=
  { orders := [("o1", { baseOrder with createdAt := 1, updatedAt := 1 })]
    events := []
    trackingIDs := [("TRK1", "o1")]
    customerIndex := [("a@b.c", ["o1"])] }

def c10s2 : PaymentStore :=
  { orders := [("o1", { c10o2 with createdAt := 2, updatedAt := 2 })]
    events := []
    trackingIDs := [("TRK1", "o1"), ("TRK2", "o1")]
    customerIndex := [("a@b.c", ["o1"]), ("x@y.z", ["o1"])] }

/-- C10 witness: a concrete silent replacement of order `o1`. -/
theorem C10_create_replaces_witness :
    mapFind "o1" c10s2.orders =
      some { c10o2 with createdAt := 2, updatedAt := 2 } ∧
    ("TRK1" ≠ "" → mapFind "TRK1" c10s2.trackingIDs = some "o1") ∧
    ("a@b.c" ≠ "" →
      ∃ l, mapFind "a@b.c" c10s2.customerIndex = some l ∧ "o1" ∈ l) :=
  C10_create_replaces.2 1 2 baseOrder c10o2 NewPaymentStore c10s1 c10s2
    (by rfl) (by rfl) (by rfl)

/-! ## C6 — payment statistics -/

theorem statsStep_avg (t m : Nat) (acc : PaymentStats) (o : Order) :
    (statsStep t m acc o).averageOrderValue = acc.averageOrderValue := by
  unfold statsStep
  split_ifs <;> rfl

theorem foldl_statsStep_avg (t m : Nat) (l : List (String × Order))
    (acc : PaymentStats) :
    (l.foldl (fun a kv => statsStep t m a kv.2) acc).averageOrderValue =
      acc.averageOrderValue := by
  induction l generalizing acc with
  | nil => rfl
  | cons kv tl ih => rw [List.foldl_cons, ih, statsStep_avg]

def c6o1 : Order :=
  { baseOrder with
    id := "order-1"
    trackingId := "TRK001"
    customerInfo := { baseCustomer with email := "customer1@example.com" }
    payment := { basePayment with amount := 1000, status := PaymentStatus.succeeded }
    status := OrderStatus.paid }

def c6o2 : Order :=
  { baseOrder with
    id := "order-2"
    trackingId := "TRK002"
    customerInfo := { baseCustomer with email := "customer2@example.com" }
    payment := { basePayment with amount := 2000, status := PaymentStatus.succeeded }
    status := OrderStatus.fulfilled }

def c6o3 : Order :=
  { baseOrder with
    id := "order-3"
    trackingId := "TRK003"
    customerInfo := { baseCustomer with email := "customer3@example.com" }
    payment := { basePayment with amount := 1500 }
    status := OrderStatus.pending }

/-- The in-memory store holding exactly the three scenario orders, created
(at tick 11, i.e. "today") through `CreateOrder` — see
`c6Store_from_creates`. -/
def c6Store : PaymentStore :=
  { orders := [("order-1", { c6o1 with createdAt := 11, updatedAt := 11 }),
               ("order-2", { c6o2 with createdAt := 11, updatedAt := 11 }),
               ("order-3", { c6o3 with createdAt := 11, updatedAt := 11 })]
    events := []
    trackingIDs := [("TRK001", "order-1"), ("TRK002", "order-2"),
                    ("TRK003", "order-3")]
    customerIndex := [("customer1@example.com", ["order-1"]),
                      ("customer2@example.com", ["order-2"]),
                      ("customer3@example.com", ["order-3"])] }

/-- The fixture really is what three consecutive `CreateOrder` calls
produce. -/
theorem c6Store_from_creates :
    ((PaymentStore.CreateOrder 11 c6o1 NewPaymentStore).bind
        (fun s => PaymentStore.CreateOrder 11 c6o2 s)).bind
      (fun s => PaymentStore.CreateOrder 11 c6o3 s) = .ok c6Store := by
  rfl

def c6Row (oid tid : String) (os : OrderStatus) : OrderRow :=
  { id := oid, trackingId := tid, customerEmail := "c@example.com",
    customerName := "", customerPhone := "", customerIp := "",
    status := os, metadata := [], createdAt := 11, updatedAt := 11,
    fulfilledAt := none }

def c6PayRow (oid : String) (amt : Int) : PaymentRow :=
  { orderId := oid, stripePaymentIntentId := "", stripeSessionId := "",
    amount := amt, currency := "usd", status := PaymentStatus.succeeded,
    method := PaymentMethod.card, processedAt := none, refundedAt := none }

/-- The relational store holding the same three scenario orders. -/
def c6pg : PG :=
  { orders := [c6Row "order-1" "TRK001" OrderStatus.paid,
               c6Row "order-2" "TRK002" OrderStatus.fulfilled,
               c6Row "order-3" "TRK003" OrderStatus.pending]
    payments := [c6PayRow "order-1" 1000, c6PayRow "order-2" 2000,
                 c6PayRow "order-3" 1500]
    items := []
    events := [] }

/-- C6: on the three-order scenario (1000¢ paid / 2000¢ fulfilled / 1500¢
pending, created today) both backends report total 3, completed 2,
pending 1, total revenue 30.00 and average 15.00; and in general the
average order value equals total revenue divided by the completed count,
with 0 (and no division fault — the division is guarded) when the
completed count is zero. -/
theorem C6_payment_stats :
    (PaymentStore.GetPaymentStats 10 5 c6Store).totalOrders = 3 ∧
    (PaymentStore.GetPaymentStats 10 5 c6Store).completedOrders = 2 ∧
    (PaymentStore.GetPaymentStats 10 5 c6Store).pendingOrders = 1 ∧
    (PaymentStore.GetPaymentStats 10 5 c6Store).totalRevenue = 30 ∧
    (PaymentStore.GetPaymentStats 10 5 c6Store).averageOrderValue = 15 ∧
    (PostgresStore.GetPaymentStats (fun t => decide (t = 11))
        (fun t => decide (t = 11)) c6pg).totalOrders = 3 ∧
    (PostgresStore.GetPaymentStats (fun t => decide (t = 11))
        (fun t => decide (t = 11)) c6pg).completedOrders = 2 ∧
    (PostgresStore.GetPaymentStats (fun t => decide (t = 11))
        (fun t => decide (t = 11)) c6pg).pendingOrders = 1 ∧
    (PostgresStore.GetPaymentStats (fun t => decide (t = 11))
        (fun t => decide (t = 11)) c6pg).totalRevenue = 30 ∧
    (PostgresStore.GetPaymentStats (fun t => decide (t = 11))
        (fun t => decide (t = 11)) c6pg).averageOrderValue = 15 ∧
    (∀ (today thisMonth : Nat) (s : PaymentStore),
      (PaymentStore.GetPaymentStats today thisMonth s).averageOrderValue =
        (if (PaymentStore.GetPaymentStats today thisMonth s).completedOrders > 0
        then (PaymentStore.GetPaymentStats today thisMonth s).totalRevenue /
          ((PaymentStore.GetPaymentStats today thisMonth s).completedOrders : ℚ)
        else 0)) ∧
    (∀ (isT isM : Nat → Bool) (st : PG),
      (PostgresStore.GetPaymentStats isT isM st).averageOrderValue =
        (if (PostgresStore.GetPaymentStats isT isM st).completedOrders > 0
        then (PostgresStore.GetPaymentStats isT isM st).totalRevenue /
          ((PostgresStore.GetPaymentStats isT isM st).completedOrders : ℚ)
        else 0)) := by
  have hmem : PaymentStore.GetPaymentStats 10 5 c6Store =
      ⟨3, 30, 1, 2, 0, 15, 30, 30⟩ := by
    simp [PaymentStore.GetPaymentStats, c6Store, statsStep, initStats,
      c6o1, c6o2, c6o3, baseOrder, basePayment, baseCustomer]
    norm_num
  have hpg : PostgresStore.GetPaymentStats (fun t => decide (t = 11))
      (fun t => decide (t = 11)) c6pg = ⟨3, 30, 1, 2, 0, 15, 30, 30⟩ := by
    simp [PostgresStore.GetPaymentStats, c6pg, c6Row, c6PayRow, List.find?]
    norm_num
  refine ⟨by rw [hmem], by rw [hmem], by rw [hmem], by rw [hmem], by rw [hmem],
    by rw [hpg], by rw [hpg], by rw [hpg], by rw [hpg], by rw [hpg], ?_, ?_⟩
  · intro today thisMonth s
    unfold PaymentStore.GetPaymentStats
    by_cases h : (s.orders.foldl
        (fun acc kv => statsStep today thisMonth acc kv.2)
        initStats).completedOrders > 0
    · rw [if_pos h]
      dsimp only
      rw [if_pos h]
    · rw [if_neg h]
      rw [if_neg h]
      rw [foldl_statsStep_avg]
      rfl
  · intro isT isM st
    unfold PostgresStore.GetPaymentStats
    by_cases h : (st.orders.filter (fun r =>
        decide (r.status = OrderStatus.paid ∨
          r.status = OrderStatus.fulfilled))).length > 0
    · rw [if_pos h]
      dsimp only
      rw [if_pos h]
    · rw [if_neg h]
      rw [if_neg h]

/-! ## C7 — GetAllOrders pagination -/

def c9Order : Order :=
  { baseOrder with payment := { basePayment with stripeSessionId := "cs_1" } }

def c9Store : PaymentStore :=
  { orders := [("o1", c9Order)], events := [], trackingIDs := [],
    customerIndex := [] }

/-- A correctly signed `checkout.session.completed` event whose parsed
session carries no payment intent and no customer details (both pointers
nil). -/
def c9Event : StripeEvent :=
  { eType := "checkout.session.completed"
    intent := none
    session := some ⟨"cs_1", none, none⟩
    invoiceOk := true
    dispute := none }

/-- C9 (counterexample): this signature-verified event finds its order
(session id `cs_1`), updates it, and then builds the payment-event data
from `session.PaymentIntent.ID` — a nil-pointer dereference. The handler
panics and no response (in particular no 200) is written. -/
theorem C9_counterexample :
    Handlers.HandleStripeWebhook true (some c9Event) 7 c9Store = none := by
  rfl

theorem hPIS_total (now : Nat) (ev : StripeEvent) (s : PaymentStore) :
    (Handlers.handlePaymentIntentSucceeded now ev s).isSome = true := by
  unfold Handlers.handlePaymentIntentSucceeded
  repeat' split
  all_goals rfl

theorem hPIC_total (now : Nat) (ev : StripeEvent) (s : PaymentStore) :
    (Handlers.handlePaymentIntentCanceled now ev s).isSome = true := by
  unfold Handlers.handlePaymentIntentCanceled
  repeat' split
  all_goals rfl

theorem hPIF_total_of (now : Nat) (ev : StripeEvent) (s : PaymentStore)
    (pi : SPaymentIntent) (lpe : String × String)
    (hi : ev.intent = some pi) (hl : pi.lastPaymentError = some lpe) :
    (Handlers.handlePaymentIntentFailed now ev s).isSome = true := by
  unfold Handlers.handlePaymentIntentFailed
  simp only [hi, hl]
  repeat' split
  all_goals rfl

theorem hCSC_total_of (now : Nat) (ev : StripeEvent) (s : PaymentStore)
    (sess : SSession) (pid : String) (cd : SCustomerDetails)
    (hs : ev.session = some sess) (hpid : sess.paymentIntentId = some pid)
    (hcd : sess.customerDetails = some cd) :
    (Handlers.handleCheckoutSessionCompleted now ev s).isSome = true := by
  unfold Handlers.handleCheckoutSessionCompleted
  simp only [hs, hpid, hcd]
  repeat' split
  all_goals rfl

theorem hCDC_total_of (ev : StripeEvent) (s : PaymentStore)
    (d : SDispute) (ch : String)
    (hd : ev.dispute = some d) (hch : d.chargeId = some ch) :
    (Handlers.handleChargeDisputeCreated ev s).isSome = true := by
  unfold Handlers.handleChargeDisputeCreated
  simp only [hd, hch]
  rfl

theorem handleWebhook_200 (now : Nat) (ev : StripeEvent) (s s' : PaymentStore)
    (h : Handlers.dispatchEvent now ev s = some s') :
    Handlers.HandleStripeWebhook true (some ev) now s = some (200, s') := by
  show (match Handlers.dispatchEvent now ev s with
    | none => none
    | some t => some (200, t)) = some (200, s')
  rw [h]

theorem handleWebhook_200_of_isSome (now : Nat) (ev : StripeEvent)
    (s : PaymentStore) (h : (Handlers.dispatchEvent now ev s).isSome = true) :
    ∃ s', Handlers.HandleStripeWebhook true (some ev) now s = some (200, s') := by
  obtain ⟨s', hs'⟩ := Option.isSome_iff_exists.1 h
  exact ⟨s', handleWebhook_200 now ev s s' hs'⟩

/-- C9 (amended): once the body is read, a failed signature verification
yields 400 with the store untouched; a verified event yields 200 — for
unrecognized event types, for all recognized types whose parsed payload
carries the pointers the handler dereferences, and regardless of whether
the referenced order is found — but a verified
`payment_intent.payment_failed` / `checkout.session.completed` /
`charge.dispute.created` event whose parsed payload lacks the
last-payment-error / payment-intent-and-customer / charge pointer can
instead panic (see the counterexample), writing no response. -/
theorem C9_webhook :
    (∀ (s : PaymentStore) (now : Nat),
      Handlers.HandleStripeWebhook true none now s = some (400, s)) ∧
    (∀ (s : PaymentStore) (now : Nat) (ev : StripeEvent),
      ev.eType ≠ "payment_intent.payment_failed" →
      ev.eType ≠ "checkout.session.completed" →
      ev.eType ≠ "charge.dispute.created" →
      ∃ s', Handlers.HandleStripeWebhook true (some ev) now s = some (200, s')) ∧
    (∀ (s : PaymentStore) (now : Nat) (ev : StripeEvent) (pi : SPaymentIntent)
        (lpe : String × String),
      ev.eType = "payment_intent.payment_failed" →
      ev.intent = some pi → pi.lastPaymentError = some lpe →
      ∃ s', Handlers.HandleStripeWebhook true (some ev) now s = some (200, s')) ∧
    (∀ (s : PaymentStore) (now : Nat) (ev : StripeEvent) (sess : SSession)
        (pid : String) (cd : SCustomerDetails),
      ev.eType = "checkout.session.completed" →
      ev.session = some sess → sess.paymentIntentId = some pid →
      sess.customerDetails = some cd →
      ∃ s', Handlers.HandleStripeWebhook true (some ev) now s = some (200, s')) ∧
    (∀ (s : PaymentStore) (now : Nat) (ev : StripeEvent) (d : SDispute)
        (ch : String),
      ev.eType = "charge.dispute.created" →
      ev.dispute = some d → d.chargeId = some ch →
      ∃ s', Handlers.HandleStripeWebhook true (some ev) now s = some (200, s')) := by
  have hdis : ∀ (now : Nat) (ev : StripeEvent) (s : PaymentStore),
      (ev.eType = "payment_intent.payment_failed" →
        ∃ pi lpe, ev.intent = some pi ∧ pi.lastPaymentError = some lpe) →
      (ev.eType = "checkout.session.completed" →
        ∃ sess pid cd, ev.session = some sess ∧
          sess.paymentIntentId = some pid ∧ sess.customerDetails = some cd) →
      (ev.eType = "charge.dispute.created" →
        ∃ d ch, ev.dispute = some d ∧ d.chargeId = some ch) →
      (Handlers.dispatchEvent now ev s).isSome = true := by
    intro now ev s hf hc hd
    unfold Handlers.dispatchEvent
    by_cases h1 : ev.eType = "payment_intent.succeeded"
    · rw [if_pos h1]; exact hPIS_total now ev s
    · rw [if_neg h1]
      by_cases h2 : ev.eType = "payment_intent.payment_failed"
      · rw [if_pos h2]
        obtain ⟨pi, lpe, hi, hl⟩ := hf h2
        exact hPIF_total_of now ev s pi lpe hi hl
      · rw [if_neg h2]
        by_cases h3 : ev.eType = "payment_intent.canceled"
        · rw [if_pos h3]; exact hPIC_total now ev s
        · rw [if_neg h3]
          by_cases h4 : ev.eType = "checkout.session.completed"
          · rw [if_pos h4]
            obtain ⟨sess, pid, cd, hs, hpid, hcd⟩ := hc h4
            exact hCSC_total_of now ev s sess pid cd hs hpid hcd
          · rw [if_neg h4]
            by_cases h5 : ev.eType = "invoice.payment_succeeded"
            · rw [if_pos h5]; rfl
            · rw [if_neg h5]
              by_cases h6 : ev.eType = "charge.dispute.created"
              · rw [if_pos h6]
                obtain ⟨d, ch, hdd, hch⟩ := hd h6
                exact hCDC_total_of ev s d ch hdd hch
              · rw [if_neg h6]; rfl
  refine ⟨fun s now => rfl, ?_, ?_, ?_, ?_⟩
  · intro s now ev hne1 hne2 hne3
    exact handleWebhook_200_of_isSome now ev s
      (hdis now ev s (fun h => absurd h hne1) (fun h => absurd h hne2)
        (fun h => absurd h hne3))
  · intro s now ev pi lpe he hi hl
    exact handleWebhook_200_of_isSome now ev s
      (hdis now ev s (fun _ => ⟨pi, lpe, hi, hl⟩)
        (fun h => absurd (he.symm.trans h) (by decide))
        (fun h => absurd (he.symm.trans h) (by decide)))
  · intro s now ev sess pid cd he hs hpid hcd
    exact handleWebhook_200_of_isSome now ev s
      (hdis now ev s (fun h => absurd (he.symm.trans h) (by decide))
        (fun _ => ⟨sess, pid, cd, hs, hpid, hcd⟩)
        (fun h => absurd (he.symm.trans h) (by decide)))
  · intro s now ev d ch he hd hch
    exact handleWebhook_200_of_isSome now ev s
      (hdis now ev s (fun h => absurd (he.symm.trans h) (by decide))
        (fun h => absurd (he.symm.trans h) (by decide))
        (fun _ => ⟨d, ch, hd, hch⟩))

def c9wEvent : StripeEvent :=
  { eType := "some.other.event"
    intent := none
    session := none
    invoiceOk := true
    dispute := none }

/-- C9 witness: a verified event of an unrecognized type gets a 200. -/
theorem C9_webhook_witness :
    ∃ s', Handlers.HandleStripeWebhook true (some c9wEvent) 0 NewPaymentStore =
      some (200, s') :=
  C9_webhook.2.1 NewPaymentStore 0 c9wEvent (by decide) (by decide) (by decide)

def c5wOrder : Order := { baseOrder with status := OrderStatus.paid }

def c5wStore : PaymentStore :=
  { orders := [("o1", c5wOrder)], events := [], trackingIDs := [],
    customerIndex := [] }

/-- C5 witness: amended in-memory fact at a concrete store. -/
theorem C5_refunded_witness :
    PaymentStore.UpdatePaymentStatus 3 "o1" PaymentStatus.refunded c5wStore =
      .ok { c5wStore with orders :=
        (mapInsert "o1"
          { c5wOrder with
            payment := { c5wOrder.payment with status := PaymentStatus.refunded }
            updatedAt := 3 } c5wStore.orders) } :=
  C5_refunded.1 c5wStore 3 "o1" c5wOrder (by rfl)

end Stripe
